import Mathlib

/-!
Shallow embedding of the Gentle Giant Maine Coon backend
(`src/main.py`, `src/schemas.py`).

Documents are modelled as association lists of field name to value,
queries as lists of per-field conditions, and the process-wide store
handle as an `Option Store`.  The document-access helpers
(`create_document`, `get_documents`) and the store connection live in a
`database` module that is not part of the sources; those definitions are
modelled from the spec and marked as such in their doc comments.
-/

/-- A JSON-like document value as stored in the document store.
Arrays appear only as arrays of strings (image URL lists). -/
inductive BVal where
  | vstr (s : String)
  | vint (n : Int)
  | vbool (b : Bool)
  | vnull
  | varr (l : List String)
  deriving Repr, DecidableEq

/-- A stored document: an association list from field names to values
(Python dict with string keys). -/
abbrev Doc := List (String × BVal)

/-- Lookup of a field in a document (`d.get(k)` / `d[k]`). -/
def getField (d : Doc) (k : String) : Option BVal :=
  (d.find? (fun p => p.1 == k)).map (fun p => p.2)

/-- Assignment `d[k] = v`: replace the value at an existing key in place,
otherwise append the new key at the end (Python dict semantics). -/
def setField : Doc → String → BVal → Doc
  | [], k, v => [(k, v)]
  | (k', v') :: rest, k, v =>
      if k' == k then (k, v) :: rest else (k', v') :: setField rest k v

/-- `d.pop(k, None)`: remove the key `k` from the document. -/
def removeField (d : Doc) (k : String) : Doc :=
  d.filter (fun p => p.1 != k)

/-- Python `str(x)` on an optional value, as used on `d.get("_id")`:
`str(None) = "None"`; store identifiers are strings in this model. -/
def pyStr : Option BVal → String
  | none => "None"
  | some (BVal.vstr s) => s
  | some (BVal.vint n) => toString n
  | some (BVal.vbool b) => if b then "True" else "False"
  | some BVal.vnull => "None"
  | some (BVal.varr l) => toString l

/-- Python string slice `s[:n]` for a nonnegative `n`. -/
def pyStrTake (s : String) (n : Nat) : String :=
  String.mk (s.toList.take n)

/-- Python list slice `l[:n]` with an arbitrary integer bound:
for `n ≥ 0` the first `n` elements, for `n < 0` all but the last `-n`. -/
def pySlice {α : Type} (l : List α) (n : Int) : List α :=
  if 0 ≤ n then l.take n.toNat else l.take (l.length - (-n).toNat)

/-- Python truthiness of an optional-string query parameter
(`if color:`): `None` and the empty string are falsy. -/
def pyTruthy : Option String → Bool
  | none => false
  | some s => s != ""

/-- Is `p` a contiguous run inside `s` (character lists)? -/
def charsInfix (p : List Char) : List Char → Bool
  | [] => p.isEmpty
  | c :: rest => p.isPrefixOf (c :: rest) || charsInfix p rest

/-- Character-wise lowercasing of a string. -/
def lowerStr (s : String) : String :=
  String.mk (s.toList.map Char.toLower)

/-- Case-insensitive substring containment: does `s` contain `pat`,
ignoring case?  This is the behaviour of a `$regex` condition with
option `"i"` on a pattern without metacharacters (spec section 4.3:
"contains, not equals, case-insensitive"). -/
def containsCI (s pat : String) : Bool :=
  charsInfix (lowerStr pat).toList (lowerStr s).toList

/-- One field condition in a store query: either
`{"$regex": pattern, "$options": "i"}` or an exact string value. -/
inductive QueryCond where
  | regexI (pattern : String)
  | eqStr (value : String)
  deriving Repr, DecidableEq

/-- A store query: a mapping from field names to conditions. -/
abbrev Query := List (String × QueryCond)

/-- Modelled from the spec: evaluation of one filter condition against a
document by the document store (the store itself is outside the
sources).  A case-insensitive regex condition selects documents whose
string field contains the pattern as a case-insensitive substring
(spec section 4.3); a plain value matches by exact equality. -/
def condMatches (d : Doc) (field : String) : QueryCond → Bool
  | QueryCond.regexI pat =>
      match getField d field with
      | some (BVal.vstr s) => containsCI s pat
      | _ => false
  | QueryCond.eqStr v => getField d field == some (BVal.vstr v)

/-- A document satisfies a query when every condition holds (logical AND). -/
def matchesQuery (d : Doc) (q : Query) : Bool :=
  q.all (fun p => condMatches d p.1 p.2)

/-- Modelled from the spec: the process-wide document-store handle
established by the (absent) `database` module.  `collections` maps a
collection name to its stored documents in natural order; `name` is the
optional `db.name` attribute; `listNamesResult` is the outcome of
`db.list_collection_names()` (a list, or the message of the raised
exception); `findError`, when set, is the store-operation error any
find raises after the handle exists; `nextId` feeds the generated
identifiers. -/
structure Store where
  name : Option String
  collections : String → List Doc
  listNamesResult : Except String (List String)
  findError : Option String
  nextId : Nat

/-- Modelled from the spec: `get_documents(collection_name, filter,
limit=0)` — find the documents of the named collection matching the
filter, in the store's natural order, returning up to `limit` of them,
`0` meaning unbounded (spec section 4.2).  A store-operation error is
raised, not caught (spec section 7). -/
def get_documents (s : Store) (coll : String) (q : Query) (limit : Int) :
    Except String (List Doc) :=
  match s.findError with
  | some e => Except.error e
  | none =>
      let res := (s.collections coll).filter (fun d => matchesQuery d q)
      Except.ok (if limit = 0 then res else res.take limit.toNat)

/-- Modelled from the spec: `create_document(collection_name, record)` —
serialize the validated record, insert it with a store-generated
identifier, and return that identifier as a string (spec section 4.2). -/
def create_document (s : Store) (coll : String) (d : Doc) : String × Store :=
  let newId := "oid" ++ toString s.nextId
  ( newId
  , { s with
      nextId := s.nextId + 1
      collections := fun c =>
        if c = coll then s.collections c ++ [("_id", BVal.vstr newId) :: d]
        else s.collections c } )

/-!
Schema/validation module (`src/schemas.py`).  A raw decoded JSON body is
modelled as a payload of optional fields (absent vs present); validation
collects one error per violated constraint, in field declaration order,
and either returns the aggregated error list or the validated record
with defaults applied — pydantic's aggregate-then-fail behaviour.
-/

/-- Split a character list at every occurrence of a separator
character (the char-level `splitOn` for a one-character separator). -/
def splitOnChar (sep : Char) : List Char → List (List Char)
  | [] => [[]]
  | c :: rest =>
      match splitOnChar sep rest with
      | [] => if c = sep then [[], []] else [[c]]
      | h :: t => if c = sep then [] :: h :: t else (c :: h) :: t

/-- Modelled from the spec: `EmailStr` — the email grammar check ships
with the validation framework, outside this repository; the spec asks
for "syntactically valid per standard email grammar": exactly one `@`,
a nonempty local part, and a dotted nonempty domain. -/
def isValidEmail (s : String) : Bool :=
  match splitOnChar '@' s.toList with
  | [lp, domain] =>
      !lp.isEmpty && !domain.isEmpty &&
      (splitOnChar '.' domain).length ≥ 2 &&
      (splitOnChar '.' domain).all (fun part => !part.isEmpty)
  | _ => false

/-- Modelled from the spec: `HttpUrl` — the URL grammar check ships with
the validation framework; a valid URL has an http(s) scheme and a
nonempty remainder. -/
def isValidUrl (s : String) : Bool :=
  (("http://".toList.isPrefixOf s.toList) && s.toList.length > 7) ||
  (("https://".toList.isPrefixOf s.toList) && s.toList.length > 8)

/-- Error for a required field that is absent (`Field(...)`). -/
def reqErr (field : String) : Option α → List String
  | none => [field ++ ": field required"]
  | some _ => []

/-- Error for an optional integer field with lower bound 0 (`ge=0`). -/
def geZeroErr (field : String) : Option Int → List String
  | none => []
  | some v => if v < 0 then [field ++ ": ensure this value is greater than or equal to 0"] else []

/-- Errors for the `rating` field (`ge=1, le=5`); absent means default. -/
def ratingErr : Option Int → List String
  | none => []
  | some r =>
      (if r < 1 then ["rating: ensure this value is greater than or equal to 1"] else []) ++
      (if r > 5 then ["rating: ensure this value is less than or equal to 5"] else [])

/-- Error for an optional `HttpUrl` field. -/
def urlOptErr (field : String) : Option String → List String
  | none => []
  | some u => if isValidUrl u then [] else [field ++ ": invalid or missing URL scheme"]

/-- Errors for the `images` list of URLs; absent means default `[]`. -/
def imagesErr : Option (List String) → List String
  | none => []
  | some l => (l.filter (fun u => !isValidUrl u)).map (fun _ => "images: invalid or missing URL scheme")

/-- Raw JSON body for `POST /api/kittens` before validation. -/
structure KittenPayload where
  name : Option String
  color : Option String
  sex : Option String
  age_weeks : Option Int
  location : Option String
  giant : Option Bool
  price_usd : Option Int
  status : Option String
  images : Option (List String)
  description : Option String

/-- A validated `Kitten` record (schemas.py, class Kitten). -/
structure Kitten where
  name : String
  color : String
  sex : String
  age_weeks : Option Int
  location : String
  giant : Bool
  price_usd : Option Int
  status : String
  images : List String
  description : Option String
  deriving Repr, DecidableEq

/-- The aggregated validation errors of a Kitten payload, in field
declaration order (schemas.py lines 49-58). -/
def kittenErrors (p : KittenPayload) : List String :=
  reqErr "name" p.name ++ reqErr "color" p.color ++ reqErr "sex" p.sex ++
  geZeroErr "age_weeks" p.age_weeks ++ reqErr "location" p.location ++
  geZeroErr "price_usd" p.price_usd ++ imagesErr p.images

/-- Validation of a Kitten body: on any violation the aggregated error
list, otherwise the record with defaults `giant=True`,
`status="available"`, `images=[]` applied to absent fields. -/
def validateKitten (p : KittenPayload) : Except (List String) Kitten :=
  if kittenErrors p = [] then
    match p.name, p.color, p.sex, p.location with
    | some n, some c, some sx, some lo =>
        Except.ok
          { name := n, color := c, sex := sx, age_weeks := p.age_weeks
            location := lo, giant := p.giant.getD true
            price_usd := p.price_usd, status := p.status.getD "available"
            images := p.images.getD [], description := p.description }
    | _, _, _, _ => Except.error (kittenErrors p)
  else Except.error (kittenErrors p)

/-- Raw JSON body for `POST /api/inquiries` before validation. -/
structure InquiryPayload where
  name : Option String
  email : Option String
  phone : Option String
  preferred_color : Option String
  location : Option String
  contact_method : Option String
  message : Option String

/-- A validated `Inquiry` record (schemas.py, class Inquiry). -/
structure Inquiry where
  name : String
  email : String
  phone : Option String
  preferred_color : Option String
  location : Option String
  contact_method : Option String
  message : Option String
  deriving Repr, DecidableEq

/-- Error for the required `EmailStr` field. -/
def emailErr : Option String → List String
  | none => ["email: field required"]
  | some e => if isValidEmail e then [] else ["email: value is not a valid email address"]

/-- The aggregated validation errors of an Inquiry payload
(schemas.py lines 65-71). -/
def inquiryErrors (q : InquiryPayload) : List String :=
  reqErr "name" q.name ++ emailErr q.email

/-- Validation of an Inquiry body. -/
def validateInquiry (q : InquiryPayload) : Except (List String) Inquiry :=
  if inquiryErrors q = [] then
    match q.name, q.email with
    | some n, some e =>
        Except.ok
          { name := n, email := e, phone := q.phone
            preferred_color := q.preferred_color, location := q.location
            contact_method := q.contact_method, message := q.message }
    | _, _ => Except.error (inquiryErrors q)
  else Except.error (inquiryErrors q)

/-- Raw JSON body for a Testimonial before validation. -/
structure TestimonialPayload where
  author : Option String
  handle : Option String
  content : Option String
  rating : Option Int
  avatar_url : Option String
  image_url : Option String

/-- A validated `Testimonial` record (schemas.py, class Testimonial). -/
structure Testimonial where
  author : String
  handle : Option String
  content : String
  rating : Int
  avatar_url : Option String
  image_url : Option String
  deriving Repr, DecidableEq

/-- The aggregated validation errors of a Testimonial payload
(schemas.py lines 77-82). -/
def testimonialErrors (t : TestimonialPayload) : List String :=
  reqErr "author" t.author ++ reqErr "content" t.content ++
  ratingErr t.rating ++ urlOptErr "avatar_url" t.avatar_url ++
  urlOptErr "image_url" t.image_url

/-- Validation of a Testimonial body: default `rating=5` when absent. -/
def validateTestimonial (t : TestimonialPayload) : Except (List String) Testimonial :=
  if testimonialErrors t = [] then
    match t.author, t.content with
    | some a, some c =>
        Except.ok
          { author := a, handle := t.handle, content := c
            rating := t.rating.getD 5, avatar_url := t.avatar_url
            image_url := t.image_url }
    | _, _ => Except.error (testimonialErrors t)
  else Except.error (testimonialErrors t)

/-!
HTTP endpoint layer (`src/main.py`).  Each endpoint is a function of the
process-wide handle `db : Option Store` and its request data.  A raised
`HTTPException` or a framework validation rejection is an `ApiError`;
write endpoints also return the resulting handle, so that "no document
stored" is visible in the result.
-/

/-- An error response of the endpoint layer: a raised `HTTPException`
with its status code and detail, or the validation framework's
aggregated 422 rejection. -/
inductive ApiError where
  | http (status : Nat) (detail : String)
  | validationError (errs : List String)
  deriving Repr, DecidableEq

/-- Response reshaping applied per returned document (main.py lines
83-84 and 147-148): `d["id"] = str(d.get("_id"))` then
`d.pop("_id", None)`.  Re-validation of the reshaped stored document
into the response model is not modelled: stored documents originate
from the validated insert path. -/
def reshape (d : Doc) : Doc :=
  removeField (setField d "id" (BVal.vstr (pyStr (getField d "_id")))) "_id"

/-- The filter built by `list_kittens` from its query parameters
(main.py lines 70-78): each of `color`, `location`, `sex` contributes a
case-insensitive regex condition when truthy, `status` an exact-match
condition when truthy. -/
def buildKittenQuery (color location sex status : Option String) : Query :=
  (if pyTruthy color then [("color", QueryCond.regexI (color.getD ""))] else []) ++
  (if pyTruthy location then [("location", QueryCond.regexI (location.getD ""))] else []) ++
  (if pyTruthy sex then [("sex", QueryCond.regexI (sex.getD ""))] else []) ++
  (if pyTruthy status then [("status", QueryCond.eqStr (status.getD ""))] else [])

/-- `GET /api/kittens` (main.py lines 66-86): empty list when the store
handle is absent, otherwise the reshaped results of a find with the
built filter.  No exception handling: a find error propagates. -/
def list_kittens (db : Option Store) (color location sex status : Option String) :
    Except String (List Doc) :=
  match db with
  | none => Except.ok []
  | some s =>
      match get_documents s "kitten" (buildKittenQuery color location sex status) 0 with
      | Except.error e => Except.error e
      | Except.ok docs => Except.ok (docs.map reshape)

/-- Serialization of a validated Kitten record for insertion. -/
def kittenToDoc (k : Kitten) : Doc :=
  [ ("name", BVal.vstr k.name), ("color", BVal.vstr k.color)
  , ("sex", BVal.vstr k.sex)
  , ("age_weeks", match k.age_weeks with | some a => BVal.vint a | none => BVal.vnull)
  , ("location", BVal.vstr k.location), ("giant", BVal.vbool k.giant)
  , ("price_usd", match k.price_usd with | some v => BVal.vint v | none => BVal.vnull)
  , ("status", BVal.vstr k.status), ("images", BVal.varr k.images)
  , ("description", match k.description with | some d => BVal.vstr d | none => BVal.vnull) ]

/-- `POST /api/kittens` handler (main.py lines 89-94), after the body
has been validated: 500 "Database not available" when the handle is
absent (no insert), otherwise insert and return the generated id. -/
def create_kitten (db : Option Store) (k : Kitten) :
    Except ApiError String × Option Store :=
  match db with
  | none => (Except.error (ApiError.http 500 "Database not available"), none)
  | some s =>
      let r := create_document s "kitten" (kittenToDoc k)
      (Except.ok r.1, some r.2)

/-- Serialization of a validated Inquiry record for insertion. -/
def inquiryToDoc (i : Inquiry) : Doc :=
  [ ("name", BVal.vstr i.name), ("email", BVal.vstr i.email)
  , ("phone", match i.phone with | some v => BVal.vstr v | none => BVal.vnull)
  , ("preferred_color", match i.preferred_color with | some v => BVal.vstr v | none => BVal.vnull)
  , ("location", match i.location with | some v => BVal.vstr v | none => BVal.vnull)
  , ("contact_method", match i.contact_method with | some v => BVal.vstr v | none => BVal.vnull)
  , ("message", match i.message with | some v => BVal.vstr v | none => BVal.vnull) ]

/-- The `InquiryResponse` model (main.py lines 101-103). -/
structure InquiryResponse where
  id : String
  success : Bool := true
  deriving Repr, DecidableEq

/-- `POST /api/inquiries` handler (main.py lines 106-111), after the
body has been validated. -/
def submit_inquiry (db : Option Store) (i : Inquiry) :
    Except ApiError InquiryResponse × Option Store :=
  match db with
  | none => (Except.error (ApiError.http 500 "Database not available"), none)
  | some s =>
      let r := create_document s "inquiry" (inquiryToDoc i)
      (Except.ok { id := r.1 }, some r.2)

/-- The full `POST /api/kittens` route: the framework validates the raw
body first (422 on violation, before the handler and before any store
interaction), then runs the handler. -/
def post_kittens (db : Option Store) (p : KittenPayload) :
    Except ApiError String × Option Store :=
  match validateKitten p with
  | Except.error errs => (Except.error (ApiError.validationError errs), db)
  | Except.ok k => create_kitten db k

/-- The full `POST /api/inquiries` route: framework validation first,
then the handler. -/
def post_inquiries (db : Option Store) (q : InquiryPayload) :
    Except ApiError InquiryResponse × Option Store :=
  match validateInquiry q with
  | Except.error errs => (Except.error (ApiError.validationError errs), db)
  | Except.ok i => submit_inquiry db i

/-- The two hardcoded fallback testimonials of `list_testimonials`
(main.py lines 126-141). -/
def fallbackExamples : List Doc :=
  [ [ ("author", BVal.vstr "Sofia R.")
    , ("handle", BVal.vstr "@sof_and_max")
    , ("content", BVal.vstr "Our shaded silver boy is massive and so gentle. The FaceTime call sealed our trust—everything was exactly as promised.")
    , ("rating", BVal.vint 5)
    , ("avatar_url", BVal.vstr "https://images.unsplash.com/photo-1607746882042-944635dfe10e?w=200&h=200&fit=crop") ]
  , [ ("author", BVal.vstr "Michael T.")
    , ("handle", BVal.vstr "@mt_angeleno")
    , ("content", BVal.vstr "Hand delivery to LA was seamless. Genetics and health transparency are top-tier. Couldn’t be happier!")
    , ("rating", BVal.vint 5)
    , ("avatar_url", BVal.vstr "https://images.unsplash.com/photo-1544723795-3fb6469f5b39?w=200&h=200&fit=crop") ] ]

/-- `GET /api/testimonials` (main.py lines 122-150): when the handle is
absent, the hardcoded examples truncated by the Python slice
`[:limit]`; otherwise a find with empty filter and the given limit,
reshaped.  A find error propagates (no exception handling). -/
def list_testimonials (db : Option Store) (limit : Int) :
    Except String (List Doc) :=
  match db with
  | none => Except.ok (pySlice fallbackExamples limit)
  | some s =>
      match get_documents s "testimonial" [] limit with
      | Except.error e => Except.error e
      | Except.ok docs => Except.ok (docs.map reshape)

/-- The diagnostic object returned by `GET /test` (main.py lines 29-36). -/
structure TestResponse where
  backend : String
  database : String
  database_url : Option String
  database_name : Option String
  connection_status : String
  collections : List String
  deriving Repr, DecidableEq

/-- `GET /test` (main.py lines 27-55).  `databaseUrlEnv` is the value of
the `DATABASE_URL` environment variable (`os.getenv`).  The inner
`try` around `list_collection_names` reduces an exception to a status
string truncated to 80 characters; the remaining steps of the model
(attribute access, `os.getenv`) cannot raise, so the outer 120-character
handler is unreachable. -/
def test_database (db : Option Store) (databaseUrlEnv : Option String) : TestResponse :=
  match db with
  | none =>
      { backend := "✅ Running"
        database := "⚠️ Available but not initialized"
        database_url := none
        database_name := none
        connection_status := "Not Connected"
        collections := [] }
  | some s =>
      { backend := "✅ Running"
        database :=
          match s.listNamesResult with
          | Except.ok _ => "✅ Connected & Working"
          | Except.error e => "⚠️ Connected but Error: " ++ pyStrTake e 80
        database_url := some (if pyTruthy databaseUrlEnv then "✅ Set" else "❌ Not Set")
        database_name := some (match s.name with | some n => n | none => "✅ Connected")
        connection_status := "Connected"
        collections :=
          match s.listNamesResult with
          | Except.ok cs => cs.take 10
          | Except.error _ => [] }

/-!
Claim-side characterizations and concrete fixtures.  `paramContains` and
`paramExact` follow the spec's words for the kitten filter ("contains,
case-insensitive" for `color`/`location`/`sex`, exact match for
`status`, omitted parameters impose no constraint); the theorems below
compare them with the filter the endpoint builds.
-/

/-- Spec-side reading of a `color`/`location`/`sex` query parameter:
when provided, the stored field must contain the value as a
case-insensitive substring; when omitted, no constraint. -/
def paramContains (d : Doc) (field : String) : Option String → Bool
  | none => true
  | some v =>
      match getField d field with
      | some (BVal.vstr s) => containsCI s v
      | _ => false

/-- Spec-side reading of the `status` query parameter: when provided,
the stored field must equal it exactly (case-sensitively); when
omitted, no constraint. -/
def paramExact (d : Doc) (field : String) : Option String → Bool
  | none => true
  | some v => getField d field == some (BVal.vstr v)

/-- A concrete kitten collection used to instantiate the theorems. -/
def demoKittens : List Doc :=
  [ [ ("_id", BVal.vstr "a1"), ("name", BVal.vstr "Smokey")
    , ("color", BVal.vstr "Smoke Black"), ("sex", BVal.vstr "Male")
    , ("location", BVal.vstr "Miami, FL"), ("status", BVal.vstr "sold") ]
  , [ ("_id", BVal.vstr "a2"), ("name", BVal.vstr "Luna")
    , ("color", BVal.vstr "Silver"), ("sex", BVal.vstr "Female")
    , ("location", BVal.vstr "Los Angeles, CA"), ("status", BVal.vstr "Sold") ]
  , [ ("_id", BVal.vstr "a3"), ("name", BVal.vstr "Max")
    , ("color", BVal.vstr "smoke blue"), ("sex", BVal.vstr "Male")
    , ("location", BVal.vstr "Miami, FL"), ("status", BVal.vstr "available") ] ]

/-- A healthy concrete store holding `demoKittens`. -/
def demoStore : Store :=
  { name := some "mainecoon"
  , collections := fun c => if c = "kitten" then demoKittens else []
  , listNamesResult := Except.ok ["kitten", "inquiry", "testimonial"]
  , findError := none
  , nextId := 0 }

/-- A store whose find operations raise a store-operation error. -/
def failingStore : Store :=
  { name := none
  , collections := fun c => if c = "kitten" then demoKittens else []
  , listNamesResult := Except.ok []
  , findError := some "connection reset by peer"
  , nextId := 0 }

/-- The long message of a failing `list_collection_names` call. -/
def diagMsg : String :=
  "pymongo.errors.ServerSelectionTimeoutError: cluster0.mongodb.net:27017: timed out after 30000 ms, Topology Description: ReplicaSetNoPrimary"

/-- A store whose `list_collection_names` raises `diagMsg`. -/
def diagFailStore : Store :=
  { name := some "mainecoon"
  , collections := fun c => if c = "kitten" then demoKittens else []
  , listNamesResult := Except.error diagMsg
  , findError := none
  , nextId := 0 }

/-- A kitten body missing the required `name` field. -/
def badKittenPayload : KittenPayload :=
  { name := none, color := some "Smoke Black", sex := some "Male"
  , age_weeks := some 12, location := some "Miami, FL", giant := none
  , price_usd := none, status := none, images := none, description := none }

/-- An inquiry body whose email is not a syntactically valid address. -/
def badInquiryPayload : InquiryPayload :=
  { name := some "Ada", email := some "not-an-email", phone := none
  , preferred_color := none, location := none, contact_method := none
  , message := none }

/-- A valid kitten body leaving `giant`, `status` and `images` absent. -/
def defaultedKittenPayload : KittenPayload :=
  { name := some "Smokey", color := some "Smoke Black", sex := some "Male"
  , age_weeks := some 12, location := some "Miami, FL", giant := none
  , price_usd := none, status := none, images := none, description := none }

/-- A valid testimonial body leaving `rating` absent. -/
def defaultedTestimonialPayload : TestimonialPayload :=
  { author := some "Sofia R.", handle := none
  , content := some "So gentle!", rating := none
  , avatar_url := none, image_url := none }

/-!
Theorems.
-/

/-- A Python slice `l[:n]` whose bound is at least the list length
returns the whole list. -/
theorem pySlice_of_length_le {α : Type} (l : List α) (n : Int)
    (h : (l.length : Int) ≤ n) : pySlice l n = l := by
  have h0 : 0 ≤ n := le_trans (by exact_mod_cast Nat.zero_le l.length) h
  unfold pySlice
  rw [if_pos h0]
  apply List.take_of_length_le
  omega

/-- C2: with the store handle absent, `GET /api/testimonials` returns
the fixed built-in set of exactly 2 hardcoded example testimonials
truncated to `limit`: any `limit ≥ 2` (in particular the default 10)
yields exactly the 2 examples, `limit = 1` yields exactly 1, and the
endpoint never returns an error in this state. -/
theorem listTestimonials_fallback_truncation :
    fallbackExamples.length = 2 ∧
    (∀ limit : Int, 2 ≤ limit →
      list_testimonials none limit = Except.ok fallbackExamples) ∧
    list_testimonials none 1 = Except.ok (fallbackExamples.take 1) ∧
    (fallbackExamples.take 1).length = 1 ∧
    (∀ limit : Int, ∃ l, list_testimonials none limit = Except.ok l) := by
  refine ⟨rfl, ?_, rfl, rfl, fun limit => ⟨_, rfl⟩⟩
  intro limit h
  show Except.ok (pySlice fallbackExamples limit) = Except.ok fallbackExamples
  rw [pySlice_of_length_le]
  have h2 : fallbackExamples.length = 2 := rfl
  rw [h2]
  exact_mod_cast h

/-- Witness for C2 at the default limit 10. -/
theorem listTestimonials_fallback_truncation_witness :
    list_testimonials none 10 = Except.ok fallbackExamples :=
  listTestimonials_fallback_truncation.2.1 10 (by norm_num)

/-- C3: with the store handle absent, `GET /api/kittens` returns the
empty list, while the `POST /api/kittens` and `POST /api/inquiries`
handlers each raise a 500 "Database not available" error and leave the
(absent) store untouched — no insert is performed. -/
theorem store_absent_read_write_behaviour :
    (∀ color location sex status,
      list_kittens none color location sex status = Except.ok []) ∧
    (∀ k : Kitten,
      create_kitten none k =
        (Except.error (ApiError.http 500 "Database not available"), none)) ∧
    (∀ i : Inquiry,
      submit_inquiry none i =
        (Except.error (ApiError.http 500 "Database not available"), none)) :=
  ⟨fun _ _ _ _ => rfl, fun _ => rfl, fun _ => rfl⟩

/-- C9: a query parameter supplied as the empty string is falsy in
Python, so `list_kittens` builds the same filter as when the parameter
is omitted: the response is identical. -/
theorem empty_string_param_is_no_constraint :
    ∀ (db : Option Store) (color location sex status : Option String),
      list_kittens db (some "") location sex status =
        list_kittens db none location sex status ∧
      list_kittens db color (some "") sex status =
        list_kittens db color none sex status ∧
      list_kittens db color location (some "") status =
        list_kittens db color location none status ∧
      list_kittens db color location sex (some "") =
        list_kittens db color location sex none := by
  intro db color location sex status
  refine ⟨?_, ?_, ?_, ?_⟩ <;> cases db <;> rfl

/-- C10: with the store handle absent, `GET /api/testimonials?limit=0`
returns the empty list — on the fallback path the Python slice `[:0]`
truncates the examples to nothing — whereas for the find helper a limit
of `0` means unbounded. -/
theorem limit_zero_fallback_vs_find :
    list_testimonials none 0 = Except.ok [] ∧
    (∀ (s : Store) (coll : String) (q : Query), s.findError = none →
      get_documents s coll q 0 =
        Except.ok ((s.collections coll).filter (fun d => matchesQuery d q))) := by
  refine ⟨rfl, fun s coll q h => ?_⟩
  unfold get_documents
  rw [h]
  simp

/-- Witness for C10: the find helper at limit 0 over the demo store. -/
theorem limit_zero_fallback_vs_find_witness :
    get_documents demoStore "kitten" [] 0 =
      Except.ok ((demoStore.collections "kitten").filter
        (fun d => matchesQuery d [])) :=
  limit_zero_fallback_vs_find.2 demoStore "kitten" [] rfl

/-- C6: `GET /test` is a total function of the store state: it always
returns the diagnostic object, the listed collection names are capped
at 10, and a failing `list_collection_names` is reduced to a
descriptive status string carrying at most 80 characters of the error
message. -/
theorem test_endpoint_total_and_truncated (db : Option Store) (env : Option String) :
    (test_database db env).backend = "✅ Running" ∧
    (test_database db env).collections.length ≤ 10 ∧
    (∀ (s : Store) (e : String), db = some s →
      s.listNamesResult = Except.error e →
      (test_database db env).database = "⚠️ Connected but Error: " ++ pyStrTake e 80 ∧
      (pyStrTake e 80).length ≤ 80) := by
  refine ⟨?_, ?_, ?_⟩
  · cases db <;> rfl
  · cases db with
    | none => simp [test_database]
    | some s =>
      cases h : s.listNamesResult with
      | ok cs => simp [test_database, h]
      | error e => simp [test_database, h]
  · rintro s e rfl h
    constructor
    · simp [test_database, h]
    · show (e.toList.take 80).length ≤ 80
      exact List.length_take_le 80 e.toList

/-- Witness for C6: the diagnostic endpoint over a store whose
collection listing raises a long error message. -/
theorem test_endpoint_total_and_truncated_witness :
    (test_database (some diagFailStore) none).database =
      "⚠️ Connected but Error: " ++ pyStrTake diagMsg 80 ∧
    (pyStrTake diagMsg 80).length ≤ 80 :=
  (test_endpoint_total_and_truncated (some diagFailStore) none).2.2
    diagFailStore diagMsg rfl rfl

/-- C7 counterexample: with a present handle whose find raises,
`GET /api/kittens` does not return an empty array — the store-operation
error propagates out of the endpoint. -/
theorem find_error_not_empty_counterexample :
    list_kittens (some failingStore) none none none none =
      Except.error "connection reset by peer" ∧
    (Except.error "connection reset by peer" : Except String (List Doc)) ≠
      Except.ok [] :=
  ⟨rfl, fun h => Except.noConfusion h⟩

/-- C7 amended: with the store handle absent, `GET /api/kittens`
returns the empty array; but a store-operation error raised by the find
helper after a handle exists is not caught by the endpoint and
propagates instead of yielding an empty array. -/
theorem find_error_propagates :
    (∀ color location sex status,
      list_kittens none color location sex status = Except.ok []) ∧
    (∀ (s : Store) (e : String) color location sex status,
      s.findError = some e →
      list_kittens (some s) color location sex status = Except.error e) := by
  refine ⟨fun _ _ _ _ => rfl, fun s e color location sex status h => ?_⟩
  simp [list_kittens, get_documents, h]

/-- Witness for C7 (amended) at the failing demo store. -/
theorem find_error_propagates_witness :
    list_kittens (some failingStore) (some "smoke") none none none =
      Except.error "connection reset by peer" :=
  find_error_propagates.2 failingStore "connection reset by peer"
    (some "smoke") none none none rfl

/-- A document matches a concatenated query when it matches both parts. -/
theorem matchesQuery_append (d : Doc) (q1 q2 : Query) :
    matchesQuery d (q1 ++ q2) = (matchesQuery d q1 && matchesQuery d q2) := by
  simp [matchesQuery, List.all_append]

/-- The optional regex piece of the kitten filter agrees with the
spec-side "contains, case-insensitive" reading for any parameter that
is not the empty string. -/
theorem matchesQuery_regexPiece (d : Doc) (field : String) (p : Option String)
    (h : p ≠ some "") :
    matchesQuery d
      (if pyTruthy p then [(field, QueryCond.regexI (p.getD ""))] else []) =
      paramContains d field p := by
  cases p with
  | none => rfl
  | some v =>
    have hv : (v != "") = true := by
      rw [bne_iff_ne]
      intro hv'
      exact h (by rw [hv'])
    simp [pyTruthy, hv, matchesQuery, paramContains, condMatches]

/-- The optional exact-match piece of the kitten filter agrees with the
spec-side exact reading for any parameter that is not the empty string. -/
theorem matchesQuery_exactPiece (d : Doc) (field : String) (p : Option String)
    (h : p ≠ some "") :
    matchesQuery d
      (if pyTruthy p then [(field, QueryCond.eqStr (p.getD ""))] else []) =
      paramExact d field p := by
  cases p with
  | none => rfl
  | some v =>
    have hv : (v != "") = true := by
      rw [bne_iff_ne]
      intro hv'
      exact h (by rw [hv'])
    simp [pyTruthy, hv, matchesQuery, paramExact, condMatches]

/-- The filter built by `list_kittens` selects a document exactly when
every provided parameter matches per the spec-side reading. -/
theorem matchesQuery_buildKittenQuery (d : Doc)
    (color location sex status : Option String)
    (hc : color ≠ some "") (hl : location ≠ some "")
    (hsx : sex ≠ some "") (hst : status ≠ some "") :
    matchesQuery d (buildKittenQuery color location sex status) =
      (paramContains d "color" color && paramContains d "location" location &&
       paramContains d "sex" sex && paramExact d "status" status) := by
  unfold buildKittenQuery
  rw [matchesQuery_append, matchesQuery_append, matchesQuery_append,
      matchesQuery_regexPiece d "color" color hc,
      matchesQuery_regexPiece d "location" location hl,
      matchesQuery_regexPiece d "sex" sex hsx,
      matchesQuery_exactPiece d "status" status hst]

/-- C1: `GET /api/kittens` with a working store selects exactly the
stored kitten records for which each provided `color`/`location`/`sex`
parameter is a case-insensitive substring of the corresponding field
and a provided `status` parameter equals the status field exactly, all
conditions combined by logical AND, omitted parameters imposing no
constraint; the selected records are returned reshaped, in store order. -/
theorem list_kittens_filter_semantics (s : Store)
    (color location sex status : Option String)
    (hferr : s.findError = none)
    (hc : color ≠ some "") (hl : location ≠ some "")
    (hsx : sex ≠ some "") (hst : status ≠ some "") :
    list_kittens (some s) color location sex status =
      Except.ok (((s.collections "kitten").filter
        (fun d => paramContains d "color" color &&
                  paramContains d "location" location &&
                  paramContains d "sex" sex &&
                  paramExact d "status" status)).map reshape) := by
  simp only [list_kittens, get_documents, hferr]
  norm_num
  congr 1
  apply List.filter_congr
  intro d _
  exact matchesQuery_buildKittenQuery d color location sex status hc hl hsx hst

/-- Witness for C1: on the demo store, `color=smo&status=sold` selects
exactly the first demo kitten (case-insensitive substring on color,
exact match on status excluding the record with status "Sold"). -/
theorem list_kittens_filter_semantics_witness :
    list_kittens (some demoStore) (some "smo") none none (some "sold") =
      Except.ok (((demoStore.collections "kitten").filter
        (fun d => paramContains d "color" (some "smo") &&
                  paramContains d "location" none &&
                  paramContains d "sex" none &&
                  paramExact d "status" (some "sold"))).map reshape) :=
  list_kittens_filter_semantics demoStore (some "smo") none none (some "sold")
    rfl (by decide) (by decide) (by decide) (by decide)

/-- After `d[k] = v`, looking up `k` yields `v`. -/
theorem getField_setField_self (d : Doc) (k : String) (v : BVal) :
    getField (setField d k v) k = some v := by
  induction d with
  | nil => simp [setField, getField]
  | cons hd tl ih =>
    obtain ⟨k', v'⟩ := hd
    by_cases h : (k' == k) = true
    · simp [setField, h, getField]
    · simp only [setField, h, if_neg]
      simpa [getField, List.find?, h] using ih

/-- After removing `k`, looking up `k` yields nothing. -/
theorem getField_removeField_self (d : Doc) (k : String) :
    getField (removeField d k) k = none := by
  induction d with
  | nil => rfl
  | cons hd tl ih =>
    obtain ⟨k', v'⟩ := hd
    by_cases h : (k' == k) = true
    · simp [removeField, getField, h]
    · simp [removeField, getField, h]

/-- Removing one key leaves the lookup of any other key unchanged. -/
theorem getField_removeField_ne (d : Doc) (k k' : String) (h : k ≠ k') :
    getField (removeField d k') k = getField d k := by
  induction d with
  | nil => rfl
  | cons hd tl ih =>
    obtain ⟨k'', v''⟩ := hd
    unfold removeField at ih ⊢
    rw [List.filter_cons]
    by_cases h2 : (k'' != k') = true
    · rw [if_pos h2]
      by_cases h4 : (k'' == k) = true
      · have h4' : ((fun p : String × BVal => p.1 == k) (k'', v'')) = true := h4
        unfold getField
        rw [List.find?_cons_of_pos (p := fun q : String × BVal => q.1 == k) _ h4',
            List.find?_cons_of_pos (p := fun q : String × BVal => q.1 == k) _ h4']
      · have h4' : ¬ ((fun p : String × BVal => p.1 == k) (k'', v'')) = true := h4
        unfold getField at ih ⊢
        rw [List.find?_cons_of_neg (p := fun q : String × BVal => q.1 == k) _ h4',
            List.find?_cons_of_neg (p := fun q : String × BVal => q.1 == k) _ h4']
        exact ih
    · rw [if_neg h2]
      have hk : ¬ ((fun p : String × BVal => p.1 == k) (k'', v'')) = true := by
        have he : k'' = k' := by simpa using h2
        subst he
        simp only [beq_iff_eq]
        exact fun he2 => h he2.symm
      unfold getField at ih ⊢
      rw [List.find?_cons_of_neg (p := fun q : String × BVal => q.1 == k) _ hk]
      exact ih

/-- C8: response reshaping removes the store-generated `_id` field and
re-attaches it as the string field `id`; every document returned by
`GET /api/kittens` and `GET /api/testimonials` on the store path is a
reshaped document, so `_id` never appears in a response. -/
theorem internal_id_projection :
    (∀ d : Doc,
      getField (reshape d) "_id" = none ∧
      getField (reshape d) "id" = some (BVal.vstr (pyStr (getField d "_id")))) ∧
    (∀ (s : Store) (color location sex status : Option String),
      s.findError = none →
      ∃ ds : List Doc,
        list_kittens (some s) color location sex status =
          Except.ok (ds.map reshape)) ∧
    (∀ (s : Store) (limit : Int), s.findError = none →
      ∃ ds : List Doc,
        list_testimonials (some s) limit = Except.ok (ds.map reshape)) := by
  refine ⟨fun d => ⟨?_, ?_⟩, fun s c l sx st h => ?_, fun s limit h => ?_⟩
  · exact getField_removeField_self _ "_id"
  · unfold reshape
    rw [getField_removeField_ne _ "id" "_id" (by decide)]
    exact getField_setField_self d "id" _
  · exact ⟨(s.collections "kitten").filter
      (fun d => matchesQuery d (buildKittenQuery c l sx st)),
      by simp [list_kittens, get_documents, h]⟩
  · refine ⟨?_, ?_⟩
    · exact
        if limit = 0 then
          (s.collections "testimonial").filter (fun d => matchesQuery d [])
        else
          ((s.collections "testimonial").filter
            (fun d => matchesQuery d [])).take limit.toNat
    · by_cases h0 : limit = 0 <;>
        simp [list_testimonials, get_documents, h, h0]

/-- Witness for C8 on the demo store. -/
theorem internal_id_projection_witness :
    ∃ ds : List Doc,
      list_kittens (some demoStore) none none none none =
        Except.ok (ds.map reshape) :=
  internal_id_projection.2.1 demoStore none none none none rfl

/-- A Kitten body violating any of the listed schema constraints has a
nonempty aggregated error list. -/
theorem kittenErrors_ne_nil (p : KittenPayload)
    (hv : p.name = none ∨ p.color = none ∨ p.sex = none ∨ p.location = none ∨
      (∃ a, p.age_weeks = some a ∧ a < 0) ∨
      (∃ v, p.price_usd = some v ∧ v < 0)) :
    kittenErrors p ≠ [] := by
  intro hnil
  rw [kittenErrors] at hnil
  simp only [List.append_eq_nil] at hnil
  obtain ⟨⟨⟨⟨⟨⟨h1, h2⟩, h3⟩, h4⟩, h5⟩, h6⟩, h7⟩ := hnil
  rcases hv with hv | hv | hv | hv | ⟨a, ha, hlt⟩ | ⟨v, hp, hlt⟩
  · rw [hv] at h1
    simp [reqErr] at h1
  · rw [hv] at h2
    simp [reqErr] at h2
  · rw [hv] at h3
    simp [reqErr] at h3
  · rw [hv] at h5
    simp [reqErr] at h5
  · rw [ha] at h4
    simp [geZeroErr, hlt] at h4
  · rw [hp] at h6
    simp [geZeroErr, hlt] at h6

/-- An Inquiry body with a missing required field or an invalid email
has a nonempty aggregated error list. -/
theorem inquiryErrors_ne_nil (q : InquiryPayload)
    (hv : q.name = none ∨ q.email = none ∨
      (∃ e, q.email = some e ∧ isValidEmail e = false)) :
    inquiryErrors q ≠ [] := by
  intro hnil
  rw [inquiryErrors] at hnil
  simp only [List.append_eq_nil] at hnil
  obtain ⟨h1, h2⟩ := hnil
  rcases hv with hv | hv | ⟨e, he, hbad⟩
  · rw [hv] at h1
    simp [reqErr] at h1
  · rw [hv] at h2
    simp [emailErr] at h2
  · rw [he] at h2
    simp [emailErr, hbad] at h2

/-- A Testimonial body whose rating lies outside `[1, 5]` has a
nonempty aggregated error list. -/
theorem testimonialErrors_ne_nil (t : TestimonialPayload) (r : Int)
    (hr : t.rating = some r) (hout : r < 1 ∨ 5 < r) :
    testimonialErrors t ≠ [] := by
  intro hnil
  rw [testimonialErrors] at hnil
  simp only [List.append_eq_nil] at hnil
  obtain ⟨⟨⟨⟨h1, h2⟩, h3⟩, h4⟩, h5⟩ := hnil
  rw [hr] at h3
  rcases hout with hout | hout
  · simp [ratingErr, hout] at h3
  · have hn1 : ¬ r < 1 := by omega
    simp [ratingErr, hout, hn1] at h3

/-- Validation of a violating body returns the aggregated error. -/
theorem validateKitten_error (p : KittenPayload) (h : kittenErrors p ≠ []) :
    validateKitten p = Except.error (kittenErrors p) := by
  rw [validateKitten, if_neg h]

/-- Validation of a violating inquiry returns the aggregated error. -/
theorem validateInquiry_error (q : InquiryPayload) (h : inquiryErrors q ≠ []) :
    validateInquiry q = Except.error (inquiryErrors q) := by
  rw [validateInquiry, if_neg h]

/-- C4: a request body violating a schema constraint — a missing
required field, a syntactically invalid email, `age_weeks < 0`,
`price_usd < 0`, or (for the Testimonial schema) `rating` outside
`[1,5]` — is rejected by the validation layer with the aggregated
(422-class) error before the handler runs: the POST endpoints return
the validation error and the store handle is unchanged, so no document
is stored. -/
theorem invalid_body_rejected_without_insert :
    (∀ (db : Option Store) (p : KittenPayload),
      (p.name = none ∨ p.color = none ∨ p.sex = none ∨ p.location = none ∨
        (∃ a, p.age_weeks = some a ∧ a < 0) ∨
        (∃ v, p.price_usd = some v ∧ v < 0)) →
      post_kittens db p =
        (Except.error (ApiError.validationError (kittenErrors p)), db) ∧
      kittenErrors p ≠ []) ∧
    (∀ (db : Option Store) (q : InquiryPayload),
      (q.name = none ∨ q.email = none ∨
        (∃ e, q.email = some e ∧ isValidEmail e = false)) →
      post_inquiries db q =
        (Except.error (ApiError.validationError (inquiryErrors q)), db) ∧
      inquiryErrors q ≠ []) ∧
    (∀ (t : TestimonialPayload) (r : Int),
      t.rating = some r → (r < 1 ∨ 5 < r) →
      validateTestimonial t = Except.error (testimonialErrors t) ∧
      testimonialErrors t ≠ []) := by
  refine ⟨fun db p hv => ?_, fun db q hv => ?_, fun t r hr hout => ?_⟩
  · have hne := kittenErrors_ne_nil p hv
    refine ⟨?_, hne⟩
    unfold post_kittens
    rw [validateKitten_error p hne]
  · have hne := inquiryErrors_ne_nil q hv
    refine ⟨?_, hne⟩
    unfold post_inquiries
    rw [validateInquiry_error q hne]
  · have hne := testimonialErrors_ne_nil t r hr hout
    exact ⟨by rw [validateTestimonial, if_neg hne], hne⟩

/-- Witness for C4: a kitten body missing `name` and an inquiry body
with the email "not-an-email" are both rejected with no insert. -/
theorem invalid_body_rejected_without_insert_witness :
    (post_kittens none badKittenPayload =
      (Except.error (ApiError.validationError (kittenErrors badKittenPayload)),
        none) ∧
      kittenErrors badKittenPayload ≠ []) ∧
    (post_inquiries none badInquiryPayload =
      (Except.error (ApiError.validationError (inquiryErrors badInquiryPayload)),
        none) ∧
      inquiryErrors badInquiryPayload ≠ []) :=
  ⟨invalid_body_rejected_without_insert.1 none badKittenPayload (Or.inl rfl),
   invalid_body_rejected_without_insert.2.1 none badInquiryPayload
     (Or.inr (Or.inr ⟨"not-an-email", rfl, by decide⟩))⟩

/-- C5: for a valid body in which the field is absent, validation
applies the defaults `giant = true`, `status = "available"` and
`images = []` to a Kitten record, and `rating = 5` to a Testimonial
record; the validated record carries these values. -/
theorem defaults_applied :
    (∀ (p : KittenPayload) (n c sx lo : String),
      kittenErrors p = [] → p.name = some n → p.color = some c →
      p.sex = some sx → p.location = some lo →
      p.giant = none → p.status = none → p.images = none →
      validateKitten p = Except.ok
        { name := n, color := c, sex := sx, age_weeks := p.age_weeks
          location := lo, giant := true, price_usd := p.price_usd
          status := "available", images := []
          description := p.description }) ∧
    (∀ (t : TestimonialPayload) (a cnt : String),
      testimonialErrors t = [] → t.author = some a → t.content = some cnt →
      t.rating = none →
      validateTestimonial t = Except.ok
        { author := a, handle := t.handle, content := cnt, rating := 5
          avatar_url := t.avatar_url, image_url := t.image_url }) := by
  constructor
  · intro p n c sx lo he hn hc hsx hlo hg hst him
    rw [validateKitten, if_pos he]
    simp [hn, hc, hsx, hlo, hg, hst, him]
  · intro t a cnt he ha hcnt hr
    rw [validateTestimonial, if_pos he]
    simp [ha, hcnt, hr]

/-- Witness for C5 at concrete defaulted bodies. -/
theorem defaults_applied_witness :
    validateKitten defaultedKittenPayload = Except.ok
      { name := "Smokey", color := "Smoke Black", sex := "Male"
        age_weeks := defaultedKittenPayload.age_weeks
        location := "Miami, FL", giant := true
        price_usd := defaultedKittenPayload.price_usd
        status := "available", images := []
        description := defaultedKittenPayload.description } ∧
    validateTestimonial defaultedTestimonialPayload = Except.ok
      { author := "Sofia R.", handle := defaultedTestimonialPayload.handle
        content := "So gentle!", rating := 5
        avatar_url := defaultedTestimonialPayload.avatar_url
        image_url := defaultedTestimonialPayload.image_url } :=
  ⟨defaults_applied.1 defaultedKittenPayload "Smokey" "Smoke Black" "Male"
      "Miami, FL" (by decide) rfl rfl rfl rfl rfl rfl rfl,
    defaults_applied.2 defaultedTestimonialPayload "Sofia R." "So gentle!"
      (by decide) rfl rfl rfl⟩
